import Mathlib

/-!
Verification development for the FlamApp collaborative drawing canvas.

The server side (src/server/drawing-state.js) has two parts:
the `DrawingState` class (a versioned operation log with undo) and the
`CollaborativeCanvasServer` class (WebSocket session coordinator with its
own raw operation array).  The client transport is `WebSocketClient`
(src/client/websocket.js).  Each JavaScript function is embedded below as
an executable Lean definition; theorems settle the spec claims about them.
-/

/-! ### DrawingState (class DrawingState, src/server/drawing-state.js lines 1-45) -/

/-- An operation as stored by `DrawingState`: `addOperation` stamps a
version onto the operation object before pushing it. -/
structure DSOp where
  userId : String
  operationId : String
  version : Nat
deriving DecidableEq

/-- The version-free payload handed to `addOperation` (any client-supplied
version field is overwritten by `operation.version = ++this.version`). -/
structure AddPayload where
  userId : String
  operationId : String
deriving DecidableEq

/-- State of a `DrawingState` instance: `operations`, `undoStack`,
`redoStack` and the `version` counter. -/
structure DrawingState where
  operations : List DSOp
  undoStack : List DSOp
  redoStack : List DSOp
  version : Nat
deriving DecidableEq

/-- The constructor: empty log, version counter 0. -/
def DrawingState.init : DrawingState :=
  { operations := [], undoStack := [], redoStack := [], version := 0 }

/-- `addOperation(operation)`: sets `operation.version = ++this.version`,
pushes onto `operations` and `undoStack`, clears `redoStack`, and returns
the (now versioned) operation. -/
def DrawingState.addOperation (s : DrawingState) (p : AddPayload) :
    DrawingState × DSOp :=
  let op : DSOp :=
    { userId := p.userId, operationId := p.operationId, version := s.version + 1 }
  ({ operations := s.operations ++ [op],
     undoStack := s.undoStack ++ [op],
     redoStack := [],
     version := s.version + 1 }, op)

/-- `getOperationsAfter(version)`: `this.operations.filter(op => op.version > version)`. -/
def DrawingState.getOperationsAfter (s : DrawingState) (version : Nat) : List DSOp :=
  s.operations.filter fun op => decide (version < op.version)

/-- The backward loop of `DrawingState.undo`: scan `operations` from the
last index down, and `splice` out the first hit for this user.  Returns
the removed element together with the remaining list, or `none`. -/
def removeLastBy : List DSOp → String → Option (DSOp × List DSOp)
  | [], _ => none
  | op :: rest, u =>
    match removeLastBy rest u with
    | some (r, rest2) => some (r, op :: rest2)
    | none => if op.userId == u then some (op, rest) else none

/-- `undo(userId)`: remove the last operation by this user from
`operations` (via `splice`), drop it from `undoStack` by `operationId`,
and return it; return `null` when the user has no operation. -/
def DrawingState.undo (s : DrawingState) (userId : String) :
    Option DSOp × DrawingState :=
  match removeLastBy s.operations userId with
  | none => (none, s)
  | some (op, ops2) =>
    (some op,
     { s with
        operations := ops2,
        undoStack := s.undoStack.filter fun o => o.operationId != op.operationId })

/-- A sequence of `addOperation` calls applied in order. -/
def applyAppends (s : DrawingState) : List AddPayload → DrawingState
  | [] => s
  | p :: ps => applyAppends (s.addOperation p).1 ps

/-! ### CollaborativeCanvasServer (src/server/drawing-state.js lines 52-296)

The server keeps `this.clients` (a Map from server-assigned userId to the
connection record) and `this.operations` (a raw array; note the server
never instantiates `DrawingState`).  Nondeterministic inputs of the
handlers (`Date.now()`, `generateOperationId()`) are passed as explicit
arguments. -/

/-- A registered connection: server-assigned id, whether
`ws.readyState === WebSocket.OPEN`, and the tracked cursor. -/
structure Client where
  userId : String
  wsOpen : Bool
  cursorX : Int
  cursorY : Int
deriving DecidableEq

/-- An operation as built by the server handlers.  `payload` abstracts the
client draw data (points, color, width, tool).  `version` is `Option`
because no server handler ever sets a version field: it is only present
if the client smuggled one inside `message.data` (the spread keeps it). -/
structure ServerOp where
  opType : Option String
  userId : String
  operationId : String
  timestamp : Nat
  payload : String
  targetOperationId : Option String
  version : Option Nat
deriving DecidableEq

/-- The `message.data` of a `draw` message.  `clientUserId` models a
`userId` key the client may have put in the data: the handler spreads the
data first and then writes the trusted `userId`, so it is discarded.
`clientVersion` models a `version` key, which the spread would keep. -/
structure DrawData where
  payload : String
  clientUserId : Option String
  clientVersion : Option Nat
deriving DecidableEq

/-- Inbound client messages dispatched by `handleMessage`. -/
inductive ClientMsg
  | draw (d : DrawData)
  | cursor (x y : Int)
  | clear
  | undo
  | ping (timestamp : Nat)
deriving DecidableEq

/-- Outbound messages the server can put on the wire. `pong` exists in the
protocol documentation (architecture doc, client latency handler) but, as
proved below, is never produced by `handleMessage`. -/
inductive OutMsg
  | drawMsg (op : ServerOp)
  | cursorMsg (senderId : String) (x y : Int)
  | clearMsg (op : ServerOp)
  | undoMsg (op : ServerOp)
  | pong (timestamp : Nat)
deriving DecidableEq

/-- Server state: the connection registry and the raw operation array. -/
structure ServerState where
  clients : List Client
  operations : List ServerOp
deriving DecidableEq

/-- Recipients of `broadcast(message, excludeUserId)`: every registry entry
with `userId !== excludeUserId` whose socket is `OPEN`; non-open entries
are skipped without error. -/
def broadcastRecipients (clients : List Client) (excludeUserId : Option String) :
    List String :=
  (clients.filter fun c => (some c.userId != excludeUserId) && c.wsOpen).map Client.userId

/-- `broadcast` pairs each recipient with the serialized message. -/
def ServerState.broadcast (st : ServerState) (m : OutMsg)
    (excludeUserId : Option String) : List (String × OutMsg) :=
  (broadcastRecipients st.clients excludeUserId).map fun u => (u, m)

/-- `this.clients.get(userId)`. -/
def lookupClient (st : ServerState) (userId : String) : Option Client :=
  st.clients.find? fun c => c.userId == userId

/-- The `cursor` case mutates the stored cursor of the sending client. -/
def updateCursor (st : ServerState) (userId : String) (x y : Int) : ServerState :=
  { st with
      clients := st.clients.map fun c =>
        if c.userId == userId then { c with cursorX := x, cursorY := y } else c }

/-- The backward loop of `handleUndo`: last element of `operations` whose
`userId` matches. -/
def findLastByUser (ops : List ServerOp) (u : String) : Option ServerOp :=
  ops.reverse.find? fun op => op.userId == u

/-- `handleUndo(userId)`: find the last operation by this user; if found,
push a new operation of type `undo` carrying `targetOperationId` (the
found operation is NOT removed from the array) and broadcast it with no
exclusion; otherwise do nothing. -/
def handleUndo (st : ServerState) (userId : String) (now : Nat) (freshId : String) :
    ServerState × List (String × OutMsg) :=
  match findLastByUser st.operations userId with
  | none => (st, [])
  | some undoneOp =>
    let undoOp : ServerOp :=
      { opType := some ("undo"), userId := userId, operationId := freshId,
        timestamp := now, payload := "",
        targetOperationId := some undoneOp.operationId, version := none }
    ({ st with operations := st.operations ++ [undoOp] },
     st.broadcast (OutMsg.undoMsg undoOp) none)

/-- `handleMessage(userId, message)`: bail out if the sender is not in the
registry; then dispatch on `message.type`.  The switch has cases for
`draw`, `cursor`, `clear` and `undo` only; a `ping` falls through and is
dropped.  The `draw` case builds `{...message.data, userId, timestamp,
operationId}` (so the trusted `userId` overwrites any client-supplied
one, while a client-supplied `version` survives the spread), pushes it,
and broadcasts excluding the sender. -/
def handleMessage (st : ServerState) (userId : String) (msg : ClientMsg)
    (now : Nat) (freshId : String) : ServerState × List (String × OutMsg) :=
  match lookupClient st userId with
  | none => (st, [])
  | some _ =>
    match msg with
    | ClientMsg.draw d =>
      let operation : ServerOp :=
        { opType := none, userId := userId, operationId := freshId,
          timestamp := now, payload := d.payload,
          targetOperationId := none, version := d.clientVersion }
      ({ st with operations := st.operations ++ [operation] },
       st.broadcast (OutMsg.drawMsg operation) (some userId))
    | ClientMsg.cursor x y =>
      (updateCursor st userId x y,
       st.broadcast (OutMsg.cursorMsg userId x y) (some userId))
    | ClientMsg.clear =>
      let clearOp : ServerOp :=
        { opType := some ("clear"), userId := userId, operationId := freshId,
          timestamp := now, payload := "",
          targetOperationId := none, version := none }
      ({ st with operations := st.operations ++ [clearOp] },
       st.broadcast (OutMsg.clearMsg clearOp) (some userId))
    | ClientMsg.undo => handleUndo st userId now freshId
    | ClientMsg.ping _ => (st, [])

/-! ### WebSocketClient (src/client/websocket.js)

The transport keeps `reconnectAttempts`, `maxReconnectAttempts = 5`,
`reconnectDelay = 1000` (a float; modelled exactly in `ℚ` since all values
reached are binary fractions), `isConnected`, and `messageQueue`.  The
inline `onopen` / `onclose` handlers are embedded as transitions; the
browser socket readiness is `wsOpen`. -/

structure WSClient where
  reconnectAttempts : Nat
  maxReconnectAttempts : Nat
  reconnectDelay : ℚ
  isConnected : Bool
  wsOpen : Bool
  messageQueue : List String
deriving DecidableEq

/-- The constructor of `WebSocketClient`. -/
def WSClient.init : WSClient :=
  { reconnectAttempts := 0, maxReconnectAttempts := 5, reconnectDelay := 1000,
    isConnected := false, wsOpen := false, messageQueue := [] }

/-- `send(message)`: if `isConnected` and the socket is `OPEN`, transmit
(the transmitted message is returned); otherwise push onto `messageQueue`. -/
def WSClient.send (st : WSClient) (m : String) : WSClient × Option String :=
  if st.isConnected && st.wsOpen then (st, some m)
  else ({ st with messageQueue := st.messageQueue ++ [m] }, none)

/-- The body of the `processMessageQueue` while-loop, structurally over the
snapshot of the queue: shift the front message and `send` it.  The loop is
only ever entered from `onopen`, where the transport is connected, so each
`send` transmits and the recursion mirrors the loop exactly. -/
def processQueueGo : List String → WSClient → WSClient × List String
  | [], st => (st, [])
  | m :: rest, st =>
    let step := st.send m
    let next := processQueueGo rest step.1
    (next.1, step.2.toList ++ next.2)

/-- `processMessageQueue()`: drain the queue front-first through `send`. -/
def WSClient.processMessageQueue (st : WSClient) : WSClient × List String :=
  processQueueGo st.messageQueue { st with messageQueue := [] }

/-- The `onopen` handler: set `isConnected = true`, reset
`reconnectAttempts = 0` (note: `reconnectDelay` is NOT touched), then
`processMessageQueue()`.  Returns the new state and the flushed messages
in transmission order. -/
def WSClient.onOpen (st : WSClient) : WSClient × List String :=
  WSClient.processMessageQueue
    { st with isConnected := true, wsOpen := true, reconnectAttempts := 0 }

/-- The `onclose` handler: set `isConnected = false`; if
`reconnectAttempts < maxReconnectAttempts`, schedule a reconnect after the
current `reconnectDelay` (returned as `some delay`); otherwise no retry is
scheduled. -/
def WSClient.onClose (st : WSClient) : WSClient × Option ℚ :=
  if st.reconnectAttempts < st.maxReconnectAttempts then
    ({ st with isConnected := false, wsOpen := false }, some st.reconnectDelay)
  else
    ({ st with isConnected := false, wsOpen := false }, none)

/-- The body of the scheduled `setTimeout` callback, run when the timer
fires just before `this.connect()`: `reconnectAttempts++` and
`reconnectDelay *= 1.5`. -/
def WSClient.reconnectTimerFire (st : WSClient) : WSClient :=
  { st with
      reconnectAttempts := st.reconnectAttempts + 1,
      reconnectDelay := st.reconnectDelay * (3 / 2) }

/-- `disconnect()`: only calls `this.ws.close()`.  No flag is set and no
pending timer is cleared; the state is unchanged, and the browser then
fires the `onclose` handler (`WSClient.onClose`) on the closed socket. -/
def WSClient.disconnect (st : WSClient) : WSClient := st

/-- One failed reconnect cycle: the channel closes (`onClose`, possibly
scheduling a retry after the returned delay) and, if scheduled, the timer
fires (`reconnectTimerFire`) and the new connection attempt fails again.
Returns the delay the cycle waited, or `none` when retrying has stopped. -/
def failedAttempt (st : WSClient) : WSClient × Option ℚ :=
  match st.onClose with
  | (st1, some d) => (st1.reconnectTimerFire, some d)
  | (st1, none) => (st1, none)

/-- The delays scheduled by `n` consecutive failed reconnect cycles. -/
def collectDelays : Nat → WSClient → List (Option ℚ) × WSClient
  | 0, st => ([], st)
  | n + 1, st =>
    let fa := failedAttempt st
    let rest := collectDelays n fa.1
    (fa.2 :: rest.1, rest.2)

/-- A freshly connected transport: the constructor state after a
successful `connect()` (the `onopen` handler has run). -/
def connectedFresh : WSClient := (WSClient.init.onOpen).1

/-! ### Helper lemmas -/

/-- When the transport is connected with an open socket, the queue-drain
loop transmits exactly its snapshot, in order, and leaves the state as it
found it. -/
theorem processQueueGo_connected (q : List String) (s : WSClient)
    (hc : s.isConnected = true) (ho : s.wsOpen = true) :
    processQueueGo q s = (s, q) := by
  induction q with
  | nil => rfl
  | cons m rest ih =>
    simp [processQueueGo, WSClient.send, hc, ho, ih]

/-- If no operation in the list belongs to the user, the backward
splice-search finds nothing. -/
theorem removeLastBy_eq_none (ops : List DSOp) (u : String)
    (h : ∀ op ∈ ops, op.userId ≠ u) : removeLastBy ops u = none := by
  induction ops with
  | nil => rfl
  | cons op rest ih =>
    have hop : op.userId ≠ u := h op (List.mem_cons_self op rest)
    have hrest : removeLastBy rest u = none :=
      ih fun o ho => h o (List.mem_cons_of_mem op ho)
    simp [removeLastBy, hrest, hop]

/-- If no server operation belongs to the user, the backward loop of
`handleUndo` finds nothing. -/
theorem findLastByUser_eq_none (ops : List ServerOp) (u : String)
    (h : ∀ op ∈ ops, op.userId ≠ u) : findLastByUser ops u = none := by
  unfold findLastByUser
  rw [List.find?_eq_none]
  intro op hop
  simpa using h op (List.mem_reverse.mp hop)

/-- Invariant preserved by any sequence of `addOperation` calls: every
stored version is at most the counter, and versions are strictly
increasing along the log. -/
theorem applyAppends_invariant (ps : List AddPayload) (s : DrawingState)
    (hb : ∀ op ∈ s.operations, op.version ≤ s.version)
    (hp : s.operations.Pairwise fun a b => a.version < b.version) :
    (∀ op ∈ (applyAppends s ps).operations, op.version ≤ (applyAppends s ps).version)
    ∧ (applyAppends s ps).operations.Pairwise (fun a b => a.version < b.version) := by
  induction ps generalizing s with
  | nil => exact ⟨hb, hp⟩
  | cons p rest ih =>
    refine ih (s.addOperation p).1 ?_ ?_
    · intro op hop
      simp only [DrawingState.addOperation, List.mem_append, List.mem_singleton] at hop ⊢
      rcases hop with hop | hop
      · exact le_trans (hb op hop) (Nat.le_succ _)
      · simp [hop]
    · simp only [DrawingState.addOperation]
      rw [List.pairwise_append]
      refine ⟨hp, List.pairwise_singleton _ _, ?_⟩
      intro a ha b hb2
      simp only [List.mem_singleton] at hb2
      subst hb2
      exact Nat.lt_succ_of_le (hb a ha)

/-! ### Claim theorems -/

/-- Claim C1: the spec says a `draw` message is appended to the Operation
Log which assigns the next version, and the finalized operation is
broadcast with its assigned version, excluding the sender.  The code does
attribute `userId` from the connection (the client-supplied author in the
data is discarded) and does exclude the sender from the broadcast, but it
pushes the operation onto the server's raw array and never calls
`DrawingState.addOperation`: the stored and broadcast operation carries no
version at all, as this evaluation at a concrete draw message shows. -/
theorem c1_draw_eval :
    handleMessage
        { clients := [⟨"u1", true, 0, 0⟩, ⟨"u2", true, 0, 0⟩], operations := [] }
        "u1"
        (ClientMsg.draw
          { payload := "stroke-points", clientUserId := some ("evil"), clientVersion := none })
        100 "op-1"
      = ({ clients := [⟨"u1", true, 0, 0⟩, ⟨"u2", true, 0, 0⟩],
           operations := [{ opType := none, userId := "u1", operationId := "op-1",
                            timestamp := 100, payload := "stroke-points",
                            targetOperationId := none, version := none }] },
         [("u2", OutMsg.drawMsg
                   { opType := none, userId := "u1", operationId := "op-1",
                     timestamp := 100, payload := "stroke-points",
                     targetOperationId := none, version := none })]) := by
  rfl

/-- Claim C2: the spec says an `undo` physically deletes the most recent
entry authored by the sender from the log and broadcasts a removal
notification to all connections including the sender.  The code does
broadcast to all connections including the sender, with the removed
operation's id as `targetOperationId`, but it never deletes the stroke:
`handleUndo` appends a new `undo` marker operation and leaves the stroke
in the array (`DrawingState.undo`, which splices, is never called), as
this evaluation shows — after the undo the log is the stroke followed by
the marker. -/
theorem c2_undo_eval :
    handleUndo
        { clients := [⟨"u1", true, 0, 0⟩, ⟨"u2", true, 0, 0⟩],
          operations := [{ opType := none, userId := "u1", operationId := "s-1",
                           timestamp := 50, payload := "p",
                           targetOperationId := none, version := none }] }
        "u1" 200 "op-2"
      = ({ clients := [⟨"u1", true, 0, 0⟩, ⟨"u2", true, 0, 0⟩],
           operations := [{ opType := none, userId := "u1", operationId := "s-1",
                            timestamp := 50, payload := "p",
                            targetOperationId := none, version := none },
                          { opType := some ("undo"), userId := "u1", operationId := "op-2",
                            timestamp := 200, payload := "",
                            targetOperationId := some ("s-1"), version := none }] },
         [("u1", OutMsg.undoMsg
                   { opType := some ("undo"), userId := "u1", operationId := "op-2",
                     timestamp := 200, payload := "",
                     targetOperationId := some ("s-1"), version := none }),
          ("u2", OutMsg.undoMsg
                   { opType := some ("undo"), userId := "u1", operationId := "op-2",
                     timestamp := 200, payload := "",
                     targetOperationId := some ("s-1"), version := none })]) := by
  rfl

/-- Claim C3: the operation log of `DrawingState` is sorted by strictly
increasing version after any sequence of appends (so no two entries share
a version), and `getOperationsAfter v` returns exactly the entries with
version strictly greater than `v`, in original log order (a sublist). -/
theorem c3_log_sorted_getAfter (ps : List AddPayload) (v : Nat) :
    (applyAppends DrawingState.init ps).operations.Pairwise
        (fun a b => a.version < b.version)
    ∧ (applyAppends DrawingState.init ps).operations.Pairwise
        (fun a b => a.version ≠ b.version)
    ∧ (∀ op, op ∈ (applyAppends DrawingState.init ps).getOperationsAfter v ↔
          op ∈ (applyAppends DrawingState.init ps).operations ∧ v < op.version)
    ∧ ((applyAppends DrawingState.init ps).getOperationsAfter v).Sublist
        (applyAppends DrawingState.init ps).operations := by
  have h := applyAppends_invariant ps DrawingState.init
    (by intro op hop; simp [DrawingState.init] at hop)
    (by simp [DrawingState.init])
  refine ⟨h.2, h.2.imp fun hlt => Nat.ne_of_lt hlt, ?_, ?_⟩
  · intro op
    simp [DrawingState.getOperationsAfter, List.mem_filter]
  · exact List.filter_sublist _

/-- Claim C4: `broadcast(m, exclude = x)` delivers `m` to exactly the
currently registered connections whose socket is open and whose id
differs from `x`; it never delivers to `x`, and non-open connections are
skipped. -/
theorem c4_broadcast_exact (st : ServerState) (m m2 : OutMsg) (x u : String) :
    ((u, m2) ∈ st.broadcast m (some x) ↔
      m2 = m ∧ u ≠ x ∧ ∃ c ∈ st.clients, c.userId = u ∧ c.wsOpen = true)
    ∧ (x, m) ∉ st.broadcast m (some x) := by
  have hmem : ∀ (u2 : String) (m3 : OutMsg),
      ((u2, m3) ∈ st.broadcast m (some x) ↔
        m3 = m ∧ u2 ≠ x ∧ ∃ c ∈ st.clients, c.userId = u2 ∧ c.wsOpen = true) := by
    intro u2 m3
    simp only [ServerState.broadcast, broadcastRecipients, List.mem_map, List.mem_filter,
      Bool.and_eq_true, bne_iff_ne, ne_eq, Option.some.injEq, Prod.mk.injEq]
    constructor
    · rintro ⟨r, ⟨c, ⟨hc, hne, hopen⟩, rfl⟩, rfl, rfl⟩
      exact ⟨rfl, hne, c, hc, rfl, hopen⟩
    · rintro ⟨rfl, hne, c, hc, rfl, hopen⟩
      exact ⟨c.userId, ⟨c, ⟨hc, hne, hopen⟩, rfl⟩, rfl, rfl⟩
  refine ⟨hmem u m2, fun hx => ((hmem x m).mp hx).2.1 rfl⟩

/-- Claim C5: the spec says the server replies to a `ping` with a `pong`
echoing the client timestamp, sent only to the sender.  The switch in
`handleMessage` has no `ping` case at all: a ping leaves the state
unchanged and produces no outbound message whatsoever — in particular no
pong ever reaches the sender. -/
theorem c5_ping_dropped (st : ServerState) (u : String) (t now : Nat) (fid : String) :
    handleMessage st u (ClientMsg.ping t) now fid = (st, []) := by
  unfold handleMessage
  cases lookupClient st u <;> rfl

/-- Claim C6: starting from a fresh connection (base delay 1000, factor
1.5, at most 5 attempts), the delays scheduled by consecutive failed
reconnect cycles are 1000, 1500, 2250, 3375, 5062.5; the sixth close
schedules nothing, and the transport remains disconnected. -/
theorem c6_backoff_schedule :
    (collectDelays 6 connectedFresh).1
      = [some 1000, some 1500, some 2250, some 3375, some (10125 / 2), none]
    ∧ (collectDelays 6 connectedFresh).2.isConnected = false := by
  norm_num [collectDelays, failedAttempt, connectedFresh, WSClient.init,
    WSClient.onOpen, WSClient.onClose, WSClient.reconnectTimerFire,
    WSClient.processMessageQueue, processQueueGo]

/-- Claim C7: the spec says a successful connection resets the attempt
counter to 0 and the backoff delay to its base value.  The `onopen`
handler does reset `reconnectAttempts` to 0, but it never touches
`reconnectDelay`: after one failed cycle (delay grown to 1500) and a
success, the delay is still 1500 and the next outage is scheduled with
1500, not the base 1000. -/
theorem c7_delay_not_reset :
    ((failedAttempt connectedFresh).1.onOpen).1.reconnectAttempts = 0
    ∧ ((failedAttempt connectedFresh).1.onOpen).1.reconnectDelay = 1500
    ∧ ((((failedAttempt connectedFresh).1.onOpen).1).onClose).2 = some 1500 := by
  norm_num [failedAttempt, connectedFresh, WSClient.init, WSClient.onOpen,
    WSClient.onClose, WSClient.reconnectTimerFire, WSClient.processMessageQueue,
    processQueueGo]

/-- The `onopen` handler in full: it connects, resets the attempt counter,
and flushes the pending queue in FIFO order, leaving the queue empty. -/
theorem onOpen_flushes (s2 : WSClient) :
    s2.onOpen
      = ({ s2 with isConnected := true, wsOpen := true, reconnectAttempts := 0, messageQueue := [] }, s2.messageQueue) := by
  unfold WSClient.onOpen WSClient.processMessageQueue
  exact processQueueGo_connected _ _ rfl rfl

/-- Claim C8: a message sent while the transport is not connected (or the
socket not open) is appended to the back of the pending queue and not
transmitted; on the next successful connection the whole queue is
transmitted in exactly its original FIFO order and emptied. -/
theorem c8_queue_fifo (st s2 : WSClient) (m : String)
    (hnc : (st.isConnected && st.wsOpen) = false) :
    (st.send m).1.messageQueue = st.messageQueue ++ [m]
    ∧ (st.send m).2 = none
    ∧ (s2.onOpen).2 = s2.messageQueue
    ∧ (s2.onOpen).1.messageQueue = [] := by
  refine ⟨?_, ?_, ?_, ?_⟩
  · simp [WSClient.send, hnc]
  · simp [WSClient.send, hnc]
  · rw [onOpen_flushes]
  · rw [onOpen_flushes]

/-- Witness for C8: the fresh (disconnected) transport queues a message,
and a transport holding a two-message queue flushes it in order on open. -/
theorem c8_queue_fifo_witness :
    (WSClient.init.isConnected && WSClient.init.wsOpen) = false
    ∧ ((WSClient.init.send "a").1.messageQueue = WSClient.init.messageQueue ++ ["a"]
      ∧ (WSClient.init.send "a").2 = none
      ∧ ((WSClient.mk 0 5 1000 false false ["x", "y"]).onOpen).2
          = (WSClient.mk 0 5 1000 false false ["x", "y"]).messageQueue
      ∧ ((WSClient.mk 0 5 1000 false false ["x", "y"]).onOpen).1.messageQueue = []) :=
  ⟨by decide,
   c8_queue_fifo WSClient.init (WSClient.mk 0 5 1000 false false ["x", "y"]) "a" (by decide)⟩

/-- Counterexample to claim C9: the claim says that after an explicit
`disconnect()` no reconnect attempt ever occurs.  `disconnect()` only
calls `ws.close()`; it sets no flag and cancels no timer, so the `onclose`
handler that then fires on the freshly-connected transport schedules a
reconnect after 1000 ms. -/
theorem c9_disconnect_reconnects :
    ((connectedFresh.disconnect).onClose).2 = some 1000
    ∧ ((connectedFresh.disconnect).onClose).2 ≠ none := by
  decide

/-- Claim C9 (amended): `disconnect()` closes the socket and the ensuing
close event leaves the transport disconnected, but it does not suppress
reconnection — whenever the attempt counter is below the maximum, the
close handler schedules a reconnect after the current backoff delay. -/
theorem c9_disconnect_no_suppression (st : WSClient)
    (h : st.reconnectAttempts < st.maxReconnectAttempts) :
    ((st.disconnect).onClose).1.isConnected = false
    ∧ ((st.disconnect).onClose).2 = some st.reconnectDelay := by
  simp [WSClient.disconnect, WSClient.onClose, h]

/-- Witness for the amended C9 at the freshly-connected transport. -/
theorem c9_disconnect_no_suppression_witness :
    connectedFresh.reconnectAttempts < connectedFresh.maxReconnectAttempts
    ∧ (((connectedFresh.disconnect).onClose).1.isConnected = false
      ∧ ((connectedFresh.disconnect).onClose).2 = some connectedFresh.reconnectDelay) :=
  ⟨by decide, c9_disconnect_no_suppression connectedFresh (by decide)⟩

/-- Claim C10: for an author with no entry in the log, `DrawingState.undo`
returns the not-found signal and leaves the whole state — in particular
the version counter and the entries — unchanged, and the server
`handleUndo` leaves its state unchanged and broadcasts nothing. -/
theorem c10_undo_not_found (s : DrawingState) (st : ServerState) (u : String)
    (now : Nat) (fid : String)
    (h1 : (s.operations.all fun op => op.userId != u) = true)
    (h2 : (st.operations.all fun op => op.userId != u) = true) :
    s.undo u = (none, s) ∧ handleUndo st u now fid = (st, []) := by
  have h1m : ∀ op ∈ s.operations, op.userId ≠ u := by
    intro op hop
    exact bne_iff_ne.mp (List.all_eq_true.mp h1 op hop)
  have h2m : ∀ op ∈ st.operations, op.userId ≠ u := by
    intro op hop
    exact bne_iff_ne.mp (List.all_eq_true.mp h2 op hop)
  constructor
  · unfold DrawingState.undo
    rw [removeLastBy_eq_none s.operations u h1m]
  · unfold handleUndo
    rw [findLastByUser_eq_none st.operations u h2m]

/-- Witness for C10: a log holding one stroke by another author is left
untouched by an undo for a user with no entries, with no broadcast. -/
theorem c10_undo_not_found_witness :
    ((DrawingState.mk [⟨"alice", "a-1", 1⟩] [] [] 1).operations.all
        fun op => op.userId != "u9") = true
    ∧ ((ServerState.mk [⟨"u9", true, 0, 0⟩] [⟨none, "alice", "a-1", 5, "p", none, none⟩]).operations.all
        fun op => op.userId != "u9") = true
    ∧ ((DrawingState.mk [⟨"alice", "a-1", 1⟩] [] [] 1).undo "u9"
        = (none, DrawingState.mk [⟨"alice", "a-1", 1⟩] [] [] 1)
      ∧ handleUndo
          (ServerState.mk [⟨"u9", true, 0, 0⟩] [⟨none, "alice", "a-1", 5, "p", none, none⟩])
          "u9" 0 "f-1"
        = (ServerState.mk [⟨"u9", true, 0, 0⟩] [⟨none, "alice", "a-1", 5, "p", none, none⟩], [])) :=
  ⟨by decide, by decide,
   c10_undo_not_found
     (DrawingState.mk [⟨"alice", "a-1", 1⟩] [] [] 1)
     (ServerState.mk [⟨"u9", true, 0, 0⟩] [⟨none, "alice", "a-1", 5, "p", none, none⟩])
     "u9" 0 "f-1" (by decide) (by decide)⟩
